import Mathlib

/-!
Verification of the claude-proxy metering reverse proxy.

The development shallowly embeds the request-gating handler (proxy.ts),
the balance cache (balance.ts), the SSE usage-tracking transform
(stream-parser.ts), the token verifier (auth.ts) and the usage reporter
with its bounded retry queue (billing.ts).  Byte streams are lists of
natural numbers (byte values), monetary amounts are rationals, and the
external collaborators (JSON.parse, jose.jwtVerify, fetch) enter as
explicit parameters describing their outcome.
-/

namespace ClaudeProxy

/-! ## SSE usage extractor (stream-parser.ts) -/

/-- Token-usage accumulator, the `UsageTokens` interface of pricing.ts. -/
structure UsageTokens where
  inputTokens : Int
  outputTokens : Int
  cacheReadTokens : Int
  cacheCreationTokens : Int
  deriving DecidableEq, Repr

/-- The `message.usage` object of a `message_start` event; `none` models an
absent or null member. -/
structure StartUsage where
  input_tokens : Option Int
  cache_read_input_tokens : Option Int
  cache_creation_input_tokens : Option Int
  deriving DecidableEq, Repr

/-- The `message` object of a `message_start` event. -/
structure StartMessage where
  model : Option String
  usage : Option StartUsage
  deriving DecidableEq, Repr

/-- The `usage` object of a `message_delta` event. -/
structure DeltaUsage where
  output_tokens : Option Int
  input_tokens : Option Int
  cache_read_input_tokens : Option Int
  cache_creation_input_tokens : Option Int
  deriving DecidableEq, Repr

/-- A parsed SSE JSON event, as far as extractUsage inspects it. -/
inductive SseEvent where
  | message_start (message : Option StartMessage)
  | message_delta (usage : Option DeltaUsage)
  | otherEvent
  deriving DecidableEq, Repr

/-- `extractUsage` of stream-parser.ts: `message_start` overwrites the input
and cache counters (`x || 0` semantics, absent members default to 0);
`message_delta` overwrites exactly the members that are non-null. -/
def extractUsage (event : SseEvent) (usage : UsageTokens) : UsageTokens :=
  match event with
  | .message_start (some msg) =>
    match msg.usage with
    | some u =>
      { usage with
        inputTokens := u.input_tokens.getD 0
        cacheReadTokens := u.cache_read_input_tokens.getD 0
        cacheCreationTokens := u.cache_creation_input_tokens.getD 0 }
    | none => usage
  | .message_start none => usage
  | .message_delta (some u) =>
    { usage with
      outputTokens := u.output_tokens.getD usage.outputTokens
      inputTokens := u.input_tokens.getD usage.inputTokens
      cacheReadTokens := u.cache_read_input_tokens.getD usage.cacheReadTokens
      cacheCreationTokens := u.cache_creation_input_tokens.getD usage.cacheCreationTokens }
  | .message_delta none => usage
  | .otherEvent => usage

/-- UTF-8 bytes of the string "data: ". -/
def dataPrefix : List Nat := [100, 97, 116, 97, 58, 32]

/-- UTF-8 bytes of the string "[DONE]". -/
def doneMarker : List Nat := [91, 68, 79, 78, 69, 93]

/-- ASCII whitespace, the bytes String.prototype.trim strips in the ASCII
range (space, tab, newline, carriage return, vertical tab, form feed). -/
def isWsByte (b : Nat) : Bool :=
  b = 32 || b = 9 || b = 10 || b = 13 || b = 11 || b = 12

/-- Byte-level model of `s.trim()` for the ASCII range. -/
def trimBytes (l : List Nat) : List Nat :=
  ((l.dropWhile isWsByte).reverse.dropWhile isWsByte).reverse

/-- Split a byte list at every occurrence of the byte `b`, the byte-level
model of `buffer.split("\n")` (always returns at least one part, parts do
not contain the separator). -/
def splitOnByte (b : Nat) : List Nat → List (List Nat)
  | [] => [[]]
  | x :: xs =>
    if x = b then [] :: splitOnByte b xs
    else
      match splitOnByte b xs with
      | [] => [[x]]
      | h :: t => (x :: h) :: t

/-- The per-line parse of the transform body: lines not starting with
"data: " are skipped, the payload is trimmed, a `[DONE]` sentinel is
skipped, and the payload goes to JSON.parse (the `parseJson` parameter;
`none` models a parse failure, which the source silently ignores). -/
def eventOfLine (parseJson : List Nat → Option SseEvent) (line : List Nat) :
    Option SseEvent :=
  if line.take dataPrefix.length = dataPrefix then
    let data := trimBytes (line.drop dataPrefix.length)
    if data = doneMarker then none
    else parseJson data
  else none

/-- State of a usage-tracking transform: the accumulator, the captured model
string and the pending (not yet newline-terminated) byte buffer. -/
structure TState where
  usage : UsageTokens
  model : String
  buffer : List Nat
  deriving DecidableEq, Repr

/-- One complete line during `transform`: update the accumulator through
extractUsage, and capture `event.message.model` of a `message_start` when
that member is truthy (the empty string is falsy in JS). -/
def transformLine (parseJson : List Nat → Option SseEvent) (s : TState)
    (line : List Nat) : TState :=
  match eventOfLine parseJson line with
  | none => s
  | some event =>
    { s with
      usage := extractUsage event s.usage
      model :=
        match event with
        | .message_start (some msg) =>
          match msg.model with
          | some m => if m = "" then s.model else m
          | none => s.model
        | _ => s.model }

/-- One line during `flush`: the residual buffer goes through the same data
line parse and extractUsage, but — unlike `transform` — the model is not
captured. -/
def flushLine (parseJson : List Nat → Option SseEvent) (s : TState)
    (line : List Nat) : TState :=
  match eventOfLine parseJson line with
  | none => s
  | some event => { s with usage := extractUsage event s.usage }

/-- The `transform(chunk, controller)` callback: the chunk is enqueued
downstream verbatim (first component of the output is the emitted chunk
list), then appended to the text buffer, which is split on newlines; the
last (possibly incomplete) line becomes the new buffer and the complete
lines are parsed. -/
def pushChunk (parseJson : List Nat → Option SseEvent) (s : TState)
    (chunk : List Nat) : TState × List (List Nat) :=
  let buf := s.buffer ++ chunk
  let lines := splitOnByte 10 buf
  let buffer := lines.getLastD []
  let complete := lines.dropLast
  (complete.foldl (transformLine parseJson) { s with buffer := buffer }, [chunk])

/-- The `flush(controller)` callback: when the residual buffer is non-blank
it is split on newlines and every line (the last included) is parsed with
`flushLine`; nothing is enqueued downstream. -/
def flushStep (parseJson : List Nat → Option SseEvent) (s : TState) :
    TState × List (List Nat) :=
  if trimBytes s.buffer ≠ [] then
    ((splitOnByte 10 s.buffer).foldl (flushLine parseJson) s, [])
  else (s, [])

/-- The closure state right after createUsageTrackingTransform(). -/
def initState : TState :=
  { usage := { inputTokens := 0, outputTokens := 0, cacheReadTokens := 0, cacheCreationTokens := 0 }
    model := ""
    buffer := [] }

/-- Feed a list of chunks through the transform, collecting every chunk
emitted downstream in order. -/
def pushMany (parseJson : List Nat → Option SseEvent) (s : TState) :
    List (List Nat) → TState × List (List Nat)
  | [] => (s, [])
  | c :: cs =>
    let p := pushChunk parseJson s c
    let r := pushMany parseJson p.1 cs
    (r.1, p.2 ++ r.2)

/-- A whole stream: push every chunk, then end-of-stream runs `flush`.
Returns the final closure state and everything emitted downstream. -/
def runTransform (parseJson : List Nat → Option SseEvent)
    (chunks : List (List Nat)) : TState × List (List Nat) :=
  let p := pushMany parseJson initState chunks
  let f := flushStep parseJson p.1
  (f.1, p.2 ++ f.2)

theorem pushMany_out (parseJson : List Nat → Option SseEvent) :
    ∀ (chunks : List (List Nat)) (s : TState),
      (pushMany parseJson s chunks).2 = chunks := by
  intro chunks
  induction chunks with
  | nil => intro s; rfl
  | cons c cs ih => intro s; simp [pushMany, pushChunk, ih]

theorem flushStep_out (parseJson : List Nat → Option SseEvent) (s : TState) :
    (flushStep parseJson s).2 = [] := by
  unfold flushStep
  split <;> rfl

/-- C2: for every finite sequence of byte chunks written to the
usage-tracking transform, the concatenation of the chunks it emits
downstream (flush included) is byte-for-byte the concatenation of the
inputs, for arbitrary chunk boundaries and any JSON-parse behaviour. -/
theorem c2_passthrough (parseJson : List Nat → Option SseEvent)
    (chunks : List (List Nat)) :
    ((runTransform parseJson chunks).2).flatten = chunks.flatten := by
  unfold runTransform
  simp [pushMany_out, flushStep_out]

theorem splitOnByte_ne_nil (b : Nat) : ∀ l : List Nat, splitOnByte b l ≠ []
  | [] => by simp [splitOnByte]
  | x :: xs => by
    unfold splitOnByte
    split
    · simp
    · cases hsp : splitOnByte b xs <;> simp

theorem not_mem_of_mem_splitOnByte (b : Nat) :
    ∀ (l : List Nat), ∀ p ∈ splitOnByte b l, b ∉ p := by
  intro l
  induction l with
  | nil =>
    intro p hp
    simp [splitOnByte] at hp
    simp [hp]
  | cons x xs ih =>
    intro p hp
    unfold splitOnByte at hp
    split at hp
    · rcases List.mem_cons.mp hp with h | h
      · simp [h]
      · exact ih p h
    · rename_i hxb
      cases hsp : splitOnByte b xs with
      | nil => exact absurd hsp (splitOnByte_ne_nil b xs)
      | cons hd tl =>
        rw [hsp] at hp
        rcases List.mem_cons.mp hp with h | h
        · subst h
          intro hmem
          rcases List.mem_cons.mp hmem with h' | h'
          · exact hxb h'.symm
          · exact ih hd (hsp ▸ List.mem_cons_self hd tl) h'
        · exact ih p (hsp ▸ List.mem_cons_of_mem hd h)

theorem splitOnByte_of_not_mem (b : Nat) :
    ∀ (l : List Nat), b ∉ l → splitOnByte b l = [l] := by
  intro l
  induction l with
  | nil => intro; rfl
  | cons x xs ih =>
    intro h
    have hxb : ¬x = b := fun he => h (he ▸ List.mem_cons_self x xs)
    have hxs : b ∉ xs := fun hm => h (List.mem_cons_of_mem x hm)
    unfold splitOnByte
    rw [if_neg hxb, ih hxs]

theorem splitOnByte_append_sep (b : Nat) :
    ∀ (l : List Nat), b ∉ l → splitOnByte b (l ++ [b]) = [l, []] := by
  intro l
  induction l with
  | nil => intro; simp [splitOnByte]
  | cons x xs ih =>
    intro h
    have hxb : ¬x = b := fun he => h (he ▸ List.mem_cons_self x xs)
    have hxs : b ∉ xs := fun hm => h (List.mem_cons_of_mem x hm)
    show splitOnByte b (x :: (xs ++ [b])) = [x :: xs, []]
    unfold splitOnByte
    rw [if_neg hxb, ih hxs]

theorem mem_getLastD {α : Type} : ∀ (l : List α) (d : α), l ≠ [] → l.getLastD d ∈ l := by
  intro l
  induction l with
  | nil => intro d h; exact absurd rfl h
  | cons a as ih =>
    intro d _
    cases has : as with
    | nil => simp [List.getLastD]
    | cons b bs =>
      rw [List.getLastD_cons]
      exact List.mem_cons_of_mem a (has ▸ ih a (by simp [has]))

theorem transformLine_buffer (parseJson : List Nat → Option SseEvent)
    (s : TState) (line : List Nat) :
    (transformLine parseJson s line).buffer = s.buffer := by
  unfold transformLine
  cases eventOfLine parseJson line <;> rfl

theorem foldl_transformLine_buffer (parseJson : List Nat → Option SseEvent) :
    ∀ (lines : List (List Nat)) (s : TState),
      (lines.foldl (transformLine parseJson) s).buffer = s.buffer := by
  intro lines
  induction lines with
  | nil => intro s; rfl
  | cons a as ih => intro s; rw [List.foldl_cons, ih, transformLine_buffer]

theorem pushChunk_buffer_clean (parseJson : List Nat → Option SseEvent)
    (s : TState) (chunk : List Nat) :
    (10 : Nat) ∉ (pushChunk parseJson s chunk).1.buffer := by
  have hmem := mem_getLastD (splitOnByte 10 (s.buffer ++ chunk)) []
    (splitOnByte_ne_nil 10 _)
  have hnm := not_mem_of_mem_splitOnByte 10 (s.buffer ++ chunk) _ hmem
  simpa [pushChunk, foldl_transformLine_buffer] using hnm

theorem pushMany_buffer_clean (parseJson : List Nat → Option SseEvent) :
    ∀ (chunks : List (List Nat)) (s : TState), (10 : Nat) ∉ s.buffer →
      (10 : Nat) ∉ (pushMany parseJson s chunks).1.buffer := by
  intro chunks
  induction chunks with
  | nil => intro s h; exact h
  | cons c cs ih =>
    intro s _
    show (10 : Nat) ∉ (pushMany parseJson (pushChunk parseJson s c).1 cs).1.buffer
    have hc : (10 : Nat) ∉ ((pushChunk parseJson s c).1).buffer := by
      have h1 := pushChunk_buffer_clean parseJson s c
      simpa [pushChunk, foldl_transformLine_buffer] using
        pushChunk_buffer_clean parseJson s c
    exact ih _ hc

theorem pushMany_append (parseJson : List Nat → Option SseEvent) :
    ∀ (as bs : List (List Nat)) (s : TState),
      (pushMany parseJson s (as ++ bs)).1 =
        (pushMany parseJson (pushMany parseJson s as).1 bs).1 := by
  intro as
  induction as with
  | nil => intro bs s; rfl
  | cons a tl ih => intro bs s; simp [pushMany, ih]

theorem flushLine_model (parseJson : List Nat → Option SseEvent)
    (s : TState) (line : List Nat) :
    (flushLine parseJson s line).model = s.model := by
  unfold flushLine
  cases eventOfLine parseJson line <;> rfl

theorem foldl_flushLine_model (parseJson : List Nat → Option SseEvent) :
    ∀ (lines : List (List Nat)) (s : TState),
      (lines.foldl (flushLine parseJson) s).model = s.model := by
  intro lines
  induction lines with
  | nil => intro s; rfl
  | cons a as ih => intro s; rw [List.foldl_cons, ih, flushLine_model]

theorem flushStep_model (parseJson : List Nat → Option SseEvent) (s : TState) :
    (flushStep parseJson s).1.model = s.model := by
  unfold flushStep
  split
  · exact foldl_flushLine_model parseJson _ s
  · rfl

theorem transformLine_usage_eq (parseJson : List Nat → Option SseEvent)
    (s t : TState) (line : List Nat) (h : s.usage = t.usage) :
    (transformLine parseJson s line).usage = (flushLine parseJson t line).usage := by
  unfold transformLine flushLine
  cases eventOfLine parseJson line <;> simp [h]

theorem trimBytes_eq_nil (l : List Nat) (h : trimBytes l = []) :
    ∀ x ∈ l, isWsByte x = true := by
  intro x hx
  unfold trimBytes at h
  rw [List.reverse_eq_nil_iff, List.dropWhile_eq_nil_iff] at h
  have hdrop : ∀ y ∈ l.dropWhile isWsByte, isWsByte y = true := by
    intro y hy
    exact h y (List.mem_reverse.mpr hy)
  have hsplit := List.takeWhile_append_dropWhile (p := isWsByte) (l := l)
  rw [← hsplit] at hx
  rcases List.mem_append.mp hx with h1 | h1
  · exact List.mem_takeWhile_imp h1
  · exact hdrop x h1

theorem eventOfLine_of_ws (parseJson : List Nat → Option SseEvent)
    (line : List Nat) (h : ∀ x ∈ line, isWsByte x = true) :
    eventOfLine parseJson line = none := by
  unfold eventOfLine
  split
  · rename_i htake
    exfalso
    have h100 : (100 : Nat) ∈ line.take dataPrefix.length := by
      rw [htake]; simp [dataPrefix]
    have := h 100 (List.take_subset _ _ h100)
    simp [isWsByte] at this
  · rfl

theorem flushStep_empty_buffer (parseJson : List Nat → Option SseEvent)
    (s : TState) (h : s.buffer = []) : flushStep parseJson s = (s, []) := by
  unfold flushStep
  rw [h]
  simp [trimBytes]

/-- Flushing a clean (newline-free) residual buffer updates the accumulator
exactly as pushing one extra newline byte would have. -/
theorem flush_after_newline (parseJson : List Nat → Option SseEvent)
    (s : TState) (hb : (10 : Nat) ∉ s.buffer) :
    (flushStep parseJson (pushChunk parseJson s [10]).1).1.usage =
      (flushStep parseJson s).1.usage := by
  have hsplit := splitOnByte_append_sep 10 s.buffer hb
  have hone := splitOnByte_of_not_mem 10 s.buffer hb
  have hpush : (pushChunk parseJson s [10]).1 =
      transformLine parseJson { s with buffer := [] } s.buffer := by
    simp [pushChunk, hsplit, List.getLastD]
  rw [hpush]
  have hbuf : (transformLine parseJson { s with buffer := [] } s.buffer).buffer = [] :=
    transformLine_buffer parseJson _ _
  rw [flushStep_empty_buffer parseJson _ hbuf]
  by_cases htr : trimBytes s.buffer = []
  · have hws := trimBytes_eq_nil s.buffer htr
    have hev := eventOfLine_of_ws parseJson s.buffer hws
    have h1 : transformLine parseJson { s with buffer := [] } s.buffer =
        { s with buffer := [] } := by
      unfold transformLine
      rw [hev]
    have h2 : flushStep parseJson s = (s, []) := by
      unfold flushStep
      simp [htr]
    rw [h1, h2]
  · have h2 : (flushStep parseJson s).1 = flushLine parseJson s s.buffer := by
      unfold flushStep
      rw [if_pos htr, hone]
      rfl
    rw [h2]
    exact transformLine_usage_eq parseJson _ s s.buffer rfl

/-- C8 (amended): flushing residual buffer content updates `getUsage()`
exactly as if the stream had ended with a newline (the line goes through the
same data-line parse and extractUsage), but — contrary to the claim — the
`finish()`/flush path never captures the model: `getModel()` reflects only
`message_start` lines completed during pushChunk. -/
theorem c8_flush_amended (parseJson : List Nat → Option SseEvent)
    (chunks : List (List Nat)) :
    (runTransform parseJson (chunks ++ [[10]])).1.usage =
        (runTransform parseJson chunks).1.usage ∧
      (runTransform parseJson chunks).1.model =
        (pushMany parseJson initState chunks).1.model := by
  constructor
  · show (flushStep parseJson (pushMany parseJson initState (chunks ++ [[10]])).1).1.usage =
      (flushStep parseJson (pushMany parseJson initState chunks).1).1.usage
    rw [pushMany_append]
    have hstep : (pushMany parseJson (pushMany parseJson initState chunks).1 [[10]]).1 =
        (pushChunk parseJson (pushMany parseJson initState chunks).1 [10]).1 := by
      simp [pushMany]
    rw [hstep]
    exact flush_after_newline parseJson _
      (pushMany_buffer_clean parseJson chunks initState (by simp [initState]))
  · exact flushStep_model parseJson _

/-- Concrete JSON-parse behaviour for the C8 counterexample: the payload
"X" parses to a message_start carrying a model and input_tokens 7. -/
def c8Parse : List Nat → Option SseEvent := fun data =>
  if data = [88] then
    some (.message_start (some
      { model := some "claude-test"
        usage := some
          { input_tokens := some 7
            cache_read_input_tokens := none
            cache_creation_input_tokens := none } }))
  else none

/-- The bytes of "data: X" with no trailing newline: the line reaches the
parser only as residual buffer content at finish(). -/
def c8Chunk : List Nat := dataPrefix ++ [88]

/-- C8 (counterexample): a message_start line seen only at flush updates
getUsage() (input_tokens 7 is extracted) but does NOT set the model, while
the same line completed by a newline during pushChunk sets the model — the
claim that flush reports the same getModel() is false. -/
theorem c8_flush_model_cex :
    (runTransform c8Parse [c8Chunk]).1.usage.inputTokens = 7 ∧
      (runTransform c8Parse [c8Chunk]).1.model = "" ∧
      (runTransform c8Parse [c8Chunk ++ [10]]).1.usage.inputTokens = 7 ∧
      (runTransform c8Parse [c8Chunk ++ [10]]).1.model = "claude-test" := by
  refine ⟨by decide, by decide, by decide, by decide⟩

/-! ## Balance cache (balance.ts) -/

/-- Cache freshness TTL, 2 minutes in milliseconds. -/
def CACHE_TTL_MS : Int := 2 * 60 * 1000

/-- Stale-cache grace period, 10 minutes in milliseconds. -/
def STALE_CACHE_TTL_MS : Int := 10 * 60 * 1000

/-- A cache entry of balance.ts: per-user balance snapshot with expiry. -/
structure CacheEntry where
  balance : Rat
  freeTokens : Rat
  expiry : Int
  deriving DecidableEq, Repr

/-- The BalanceResult interface of balance.ts. The source declares
serviceUnavailable as an optional member that is only ever set to `true`;
`false` here models the member being unset. -/
structure BalanceResult where
  balance : Rat
  freeTokens : Rat
  ok : Bool
  serviceUnavailable : Bool
  deriving DecidableEq, Repr

/-- Parsed body of a 2xx response from GET /api/billing/balance; missing
numeric members are `none`. -/
structure BalanceBody where
  balance : Option Rat
  freeTokens : Option Rat
  deriving DecidableEq, Repr

/-- Outcome of the billing-server fetch inside checkBalance: a 2xx response
with a parsed body, a non-2xx response (`!res.ok`), or a thrown network
error. -/
inductive FetchResult where
  | success (body : BalanceBody)
  | httpError
  | networkError
  deriving DecidableEq, Repr

/-- fallbackToStaleCache of balance.ts: a prior entry within the stale grace
period is served with the usable predicate re-evaluated; otherwise the
request is rejected with serviceUnavailable. -/
def fallbackToStaleCache (cached : Option CacheEntry) (now : Int) : BalanceResult :=
  match cached with
  | some c =>
    if c.expiry > now - STALE_CACHE_TTL_MS then
      { balance := c.balance
        freeTokens := c.freeTokens
        ok := decide (0 < c.balance) || decide (0 < c.freeTokens)
        serviceUnavailable := false }
    else { balance := 0, freeTokens := 0, ok := false, serviceUnavailable := true }
  | none => { balance := 0, freeTokens := 0, ok := false, serviceUnavailable := true }

/-- `cache.set(userId, e)` on the association-list model of the Map. -/
def cacheSet (cache : List (String × CacheEntry)) (userId : String)
    (e : CacheEntry) : List (String × CacheEntry) :=
  match cache with
  | [] => [(userId, e)]
  | (k, v) :: rest =>
    if k = userId then (userId, e) :: rest else (k, v) :: cacheSet rest userId e

/-- The fetch path of checkBalance (cache miss or expired entry): a 2xx
response upserts a fresh entry and returns `ok = balance > 0 || freeTokens > 0`;
a non-2xx response or a thrown fetch falls back to the stale cache. -/
def checkBalanceFetch (cache : List (String × CacheEntry))
    (cached : Option CacheEntry) (userId : String) (now : Int)
    (fetchResult : FetchResult) : BalanceResult × List (String × CacheEntry) :=
  match fetchResult with
  | .httpError => (fallbackToStaleCache cached now, cache)
  | .networkError => (fallbackToStaleCache cached now, cache)
  | .success body =>
    let balance := body.balance.getD 0
    let freeTokens := body.freeTokens.getD 0
    ({ balance := balance
       freeTokens := freeTokens
       ok := decide (0 < balance) || decide (0 < freeTokens)
       serviceUnavailable := false },
     cacheSet cache userId { balance := balance, freeTokens := freeTokens, expiry := now + CACHE_TTL_MS })

/-- checkBalance of src/src/balance.ts: fresh cache hit answers from the
cache with no network call; otherwise the billing server is consulted
(`fetchResult` is that call's outcome). Returns the result and the cache
after the call. -/
def checkBalance (cache : List (String × CacheEntry)) (userId : String)
    (now : Int) (fetchResult : FetchResult) :
    BalanceResult × List (String × CacheEntry) :=
  match (cache.find? (fun p => p.1 = userId)).map Prod.snd with
  | some c =>
    if c.expiry > now then
      ({ balance := c.balance
         freeTokens := c.freeTokens
         ok := decide (0 < c.balance) || decide (0 < c.freeTokens)
         serviceUnavailable := false }, cache)
    else checkBalanceFetch cache (some c) userId now fetchResult
  | none => checkBalanceFetch cache none userId now fetchResult

/-- Cache entry of the claudeBalance revision of checkBalance embedded in
balance.test.ts (lines 712-825). -/
structure CacheEntryCB where
  balance : Rat
  totalAvailable : Rat
  claudeBalance : Rat
  expiry : Int
  deriving DecidableEq, Repr

/-- BalanceResult of the claudeBalance revision: the snapshot's
claudeBalance is consulted for `ok` but not returned. -/
structure BalanceResultCB where
  balance : Rat
  totalAvailable : Rat
  ok : Bool
  serviceUnavailable : Bool
  deriving DecidableEq, Repr

/-- Parsed 2xx body for the claudeBalance revision. -/
structure BalanceBodyCB where
  balance : Option Rat
  totalAvailable : Option Rat
  claudeBalance : Option Rat
  deriving DecidableEq, Repr

/-- Fetch outcome for the claudeBalance revision. -/
inductive FetchResultCB where
  | success (body : BalanceBodyCB)
  | httpError
  | networkError
  deriving DecidableEq, Repr

/-- fallbackToStaleCache of the claudeBalance revision. -/
def fallbackToStaleCacheCB (cached : Option CacheEntryCB) (now : Int) :
    BalanceResultCB :=
  match cached with
  | some c =>
    if c.expiry > now - STALE_CACHE_TTL_MS then
      { balance := c.balance
        totalAvailable := c.totalAvailable
        ok := decide (0 < c.claudeBalance) || decide (0 < c.totalAvailable)
        serviceUnavailable := false }
    else { balance := 0, totalAvailable := 0, ok := false, serviceUnavailable := true }
  | none => { balance := 0, totalAvailable := 0, ok := false, serviceUnavailable := true }

/-- `cache.set` for the claudeBalance revision. -/
def cacheSetCB (cache : List (String × CacheEntryCB)) (userId : String)
    (e : CacheEntryCB) : List (String × CacheEntryCB) :=
  match cache with
  | [] => [(userId, e)]
  | (k, v) :: rest =>
    if k = userId then (userId, e) :: rest else (k, v) :: cacheSetCB rest userId e

/-- Fetch path of the claudeBalance revision:
`ok = claudeBalance > 0 || totalAvailable > 0`. -/
def checkBalanceFetchCB (cache : List (String × CacheEntryCB))
    (cached : Option CacheEntryCB) (userId : String) (now : Int)
    (fetchResult : FetchResultCB) : BalanceResultCB × List (String × CacheEntryCB) :=
  match fetchResult with
  | .httpError => (fallbackToStaleCacheCB cached now, cache)
  | .networkError => (fallbackToStaleCacheCB cached now, cache)
  | .success body =>
    let balance := body.balance.getD 0
    let totalAvailable := body.totalAvailable.getD 0
    let claudeBalance := body.claudeBalance.getD 0
    ({ balance := balance
       totalAvailable := totalAvailable
       ok := decide (0 < claudeBalance) || decide (0 < totalAvailable)
       serviceUnavailable := false },
     cacheSetCB cache userId
       { balance := balance, totalAvailable := totalAvailable
         claudeBalance := claudeBalance, expiry := now + CACHE_TTL_MS })

/-- checkBalance of the claudeBalance revision (balance.test.ts lines 739-787). -/
def checkBalanceCB (cache : List (String × CacheEntryCB)) (userId : String)
    (now : Int) (fetchResult : FetchResultCB) :
    BalanceResultCB × List (String × CacheEntryCB) :=
  match (cache.find? (fun p => p.1 = userId)).map Prod.snd with
  | some c =>
    if c.expiry > now then
      ({ balance := c.balance
         totalAvailable := c.totalAvailable
         ok := decide (0 < c.claudeBalance) || decide (0 < c.totalAvailable)
         serviceUnavailable := false }, cache)
    else checkBalanceFetchCB cache (some c) userId now fetchResult
  | none => checkBalanceFetchCB cache none userId now fetchResult

/-- The usable predicate exactly as the claim words it:
`claudeBalance > 0 OR freeTokens > 0`. -/
def claimUsable (claudeBalance freeTokens : Rat) : Bool :=
  decide (0 < claudeBalance) || decide (0 < freeTokens)

theorem fallbackToStaleCache_ok (cached : Option CacheEntry) (now : Int) :
    (fallbackToStaleCache cached now).serviceUnavailable = false →
      (fallbackToStaleCache cached now).ok =
        (decide (0 < (fallbackToStaleCache cached now).balance) ||
          decide (0 < (fallbackToStaleCache cached now).freeTokens)) := by
  cases cached with
  | none => simp [fallbackToStaleCache]
  | some c =>
    simp only [fallbackToStaleCache]
    split
    · intro _; rfl
    · simp

theorem checkBalanceFetch_ok (cache : List (String × CacheEntry))
    (cached : Option CacheEntry) (userId : String) (now : Int)
    (fr : FetchResult) :
    (checkBalanceFetch cache cached userId now fr).1.serviceUnavailable = false →
      (checkBalanceFetch cache cached userId now fr).1.ok =
        (decide (0 < (checkBalanceFetch cache cached userId now fr).1.balance) ||
          decide (0 < (checkBalanceFetch cache cached userId now fr).1.freeTokens)) := by
  cases fr with
  | success body => intro _; rfl
  | httpError => exact fallbackToStaleCache_ok cached now
  | networkError => exact fallbackToStaleCache_ok cached now

/-- C4 (counterexample): a successful 2xx fetch returning balance 10 and
freeTokens 0 yields `ok = true` with serviceUnavailable unset, yet the
claim's predicate `claudeBalance > 0 OR freeTokens > 0` is false on that
snapshot (src/src/balance.ts has no claudeBalance member at all, so it
defaults to 0); likewise the claudeBalance revision answers `ok = true` for
a snapshot with claudeBalance 0, totalAvailable 5 and freeTokens absent. -/
theorem c4_usable_predicate_cex :
    ((checkBalance [] "u" 0 (.success { balance := some 10, freeTokens := some 0 })).1.serviceUnavailable = false ∧
      (checkBalance [] "u" 0 (.success { balance := some 10, freeTokens := some 0 })).1.ok = true ∧
      (checkBalance [] "u" 0 (.success { balance := some 10, freeTokens := some 0 })).1.freeTokens = 0 ∧
      claimUsable 0 (checkBalance [] "u" 0 (.success { balance := some 10, freeTokens := some 0 })).1.freeTokens = false) ∧
    ((checkBalanceCB [] "u" 0 (.success { balance := some 0, totalAvailable := some 5, claudeBalance := some 0 })).1.ok = true ∧
      claimUsable 0 0 = false) := by
  refine ⟨⟨by decide, by decide, by decide, by decide⟩, by decide, by decide⟩

/-- C4 (amended): whenever checkBalance of src/src/balance.ts returns a
result with serviceUnavailable unset, `ok` equals `balance > 0 OR
freeTokens > 0` evaluated on the returned snapshot; in the claudeBalance
revision the predicate is `claudeBalance > 0 OR totalAvailable > 0` on the
snapshot consulted (fetched body or fresh cache entry). -/
theorem c4_usable_predicate_amended :
    (∀ (cache : List (String × CacheEntry)) (userId : String) (now : Int)
        (fr : FetchResult),
      (checkBalance cache userId now fr).1.serviceUnavailable = false →
        (checkBalance cache userId now fr).1.ok =
          (decide (0 < (checkBalance cache userId now fr).1.balance) ||
            decide (0 < (checkBalance cache userId now fr).1.freeTokens))) ∧
    (∀ (userId : String) (now : Int) (body : BalanceBodyCB),
      (checkBalanceCB [] userId now (.success body)).1.ok =
        claimUsable (body.claudeBalance.getD 0) (body.totalAvailable.getD 0)) ∧
    (∀ (userId : String) (now : Int) (e : CacheEntryCB) (fr : FetchResultCB),
      now < e.expiry →
        (checkBalanceCB [(userId, e)] userId now fr).1.ok =
          (decide (0 < e.claudeBalance) || decide (0 < e.totalAvailable))) := by
  refine ⟨?_, ?_, ?_⟩
  · intro cache userId now fr
    unfold checkBalance
    split
    · split
      · intro _; rfl
      · exact checkBalanceFetch_ok cache _ userId now fr
    · exact checkBalanceFetch_ok cache none userId now fr
  · intro userId now body
    rfl
  · intro userId now e fr hfresh
    unfold checkBalanceCB
    simp [List.find?, hfresh]

/-- C4 (witness): the amended statements applied at concrete inputs. -/
theorem c4_usable_predicate_witness :
    ((checkBalance [] "u" 7 (.success { balance := some 3, freeTokens := none })).1.serviceUnavailable = false ∧
      (checkBalance [] "u" 7 (.success { balance := some 3, freeTokens := none })).1.ok =
        (decide ((0 : Rat) < 3) || decide ((0 : Rat) < 0))) ∧
    ((0 : Int) < 5 ∧
      (checkBalanceCB [("u", { balance := 1, totalAvailable := 2, claudeBalance := 0, expiry := 5 })] "u" 0 .httpError).1.ok =
        (decide ((0 : Rat) < 0) || decide ((0 : Rat) < 2))) := by
  refine ⟨⟨by decide, ?_⟩, by decide, ?_⟩
  · have h := (c4_usable_predicate_amended.1) [] "u" 7
      (.success { balance := some 3, freeTokens := none }) (by decide)
    simpa using h
  · have h := (c4_usable_predicate_amended.2.2) "u" 0
      { balance := 1, totalAvailable := 2, claudeBalance := 0, expiry := 5 }
      .httpError (by decide)
    simpa using h

/-! ## Token verifier (auth.ts) -/

/-- A JWT claim value as the verifier distinguishes them: a string, or a
present non-string value (number, object, ...). `none` below models a
nullish (absent or null) claim, the values `??` skips. -/
inductive ClaimVal where
  | str (s : String)
  | nonString
  deriving DecidableEq, Repr

/-- The claims of a signature-verified JWT payload that verifyToken reads. -/
structure JwtClaims where
  userId : Option ClaimVal
  sub : Option ClaimVal
  id : Option ClaimVal
  deriving DecidableEq, Repr

/-- The principal returned on success. -/
structure Principal where
  userId : String
  deriving DecidableEq, Repr

/-- verifyToken failure modes: jose.jwtVerify rejected (malformed token,
bad signature, expired), or the missing-user-identifier error thrown by
auth.ts itself. -/
inductive AuthError where
  | badToken
  | missingUserId
  deriving DecidableEq, Repr

/-- verifyToken of auth.ts. The jose.jwtVerify outcome is the `sigOk`
parameter; on success the payload's claims are inspected:
`payload.userId ?? payload.sub ?? payload.id` picks the first non-nullish
value, and a non-string pick throws "JWT missing userId/sub/id claim". -/
def verifyToken (sigOk : Bool) (payload : JwtClaims) :
    Except AuthError Principal :=
  if !sigOk then .error .badToken
  else
    match (payload.userId.orElse fun _ => payload.sub).orElse fun _ => payload.id with
    | some (.str s) => .ok { userId := s }
    | some .nonString => .error .missingUserId
    | none => .error .missingUserId

/-- C9 (counterexample): a verified token whose userId claim is the empty
string succeeds and yields the empty userId — the claim that a successful
verification never yields an empty userId is false. -/
theorem c9_empty_userid_cex :
    verifyToken true { userId := some (.str ""), sub := none, id := none } =
        .ok { userId := "" } ∧
      ({ userId := "" } : Principal).userId = "" := by
  exact ⟨rfl, rfl⟩

/-- C9 (amended): verifyToken succeeds exactly when the signature verifies
and the first non-nullish of the userId, sub, id claims is a string (the
empty string included), and then that string — possibly empty — is the
principal's userId; when the first non-nullish claim is not a string, or
all three are nullish, it throws the missing-user-identifier error. -/
theorem c9_userid_amended (sigOk : Bool) (payload : JwtClaims) (u : Principal) :
    verifyToken sigOk payload = .ok u ↔
      (sigOk = true ∧
        (payload.userId.orElse fun _ => payload.sub).orElse (fun _ => payload.id) =
          some (.str u.userId)) := by
  cases sigOk with
  | false => simp [verifyToken]
  | true =>
    simp only [verifyToken, Bool.not_true, Bool.false_eq_true, if_false, true_and]
    cases hfc : (payload.userId.orElse fun _ => payload.sub).orElse fun _ => payload.id with
    | none => simp
    | some v =>
      cases v with
      | str s =>
        constructor
        · intro h
          cases u
          simpa using h
        · intro h
          simp at h
          simp [h]
      | nonString => simp

/-- C9 (witness): the amended characterization applied at a concrete
payload carrying the user under the sub claim. -/
theorem c9_userid_witness :
    verifyToken true { userId := none, sub := some (.str "alice"), id := none } =
      .ok { userId := "alice" } := by
  exact (c9_userid_amended true
    { userId := none, sub := some (.str "alice"), id := none }
    { userId := "alice" }).mpr ⟨rfl, rfl⟩

/-! ## Usage reporter (billing.ts) -/

/-- Queue capacity of the failed-reports retry queue. -/
def MAX_FAILED_REPORTS : Nat := 1000

/-- Maximum number of retry attempts per entry. -/
def MAX_RETRIES : Nat := 3

/-- Base retry delay, 30 seconds in milliseconds. -/
def BASE_RETRY_MS : Int := 30000

/-- A JSON value as it appears in the usage payload. -/
inductive JVal where
  | s (v : String)
  | num (v : Rat)
  deriving DecidableEq, Repr

/-- The UsageReport interface of the billing.ts revision with the retry
queue (src/unnamed/part_002 lines 4-10): no cache-token members. -/
structure UsageReportV1 where
  userId : String
  model : String
  inputTokens : Int
  outputTokens : Int
  cost : Rat
  deriving DecidableEq, Repr

/-- The payload built by reportUsage of that revision (part_002 lines
33-40), as the ordered key/value pairs JSON.stringify serializes. -/
def usagePayloadV1 (r : UsageReportV1) : List (String × JVal) :=
  [("model", .s r.model),
   ("provider", .s "anthropic"),
   ("inputTokens", .num r.inputTokens),
   ("outputTokens", .num r.outputTokens),
   ("totalTokens", .num (r.inputTokens + r.outputTokens)),
   ("cost", .num r.cost)]

/-- The UsageReport interface of the second billing.ts revision (part_002
lines 133-138): nested usage counters and costUsd. -/
structure UsageReportV2 where
  userId : String
  model : String
  usage : UsageTokens
  costUsd : Rat
  deriving DecidableEq, Repr

/-- The payload built by reportUsage of the second revision (part_002
lines 148-155). -/
def usagePayloadV2 (r : UsageReportV2) : List (String × JVal) :=
  [("model", .s r.model),
   ("inputTokens", .num r.usage.inputTokens),
   ("outputTokens", .num r.usage.outputTokens),
   ("cacheReadTokens", .num r.usage.cacheReadTokens),
   ("cacheCreationTokens", .num r.usage.cacheCreationTokens),
   ("costUsd", .num r.costUsd)]

/-- The UsageReport shape billing.test.ts constructs (flat token counters,
cache members included, cost). -/
structure UsageReportFull where
  userId : String
  model : String
  inputTokens : Int
  outputTokens : Int
  cacheReadTokens : Int
  cacheCreationTokens : Int
  cost : Rat
  deriving DecidableEq, Repr

/-- Modelled from the claim (and asserted verbatim by billing.test.ts lines
54-65): the payload with exactly the members model, provider "anthropic",
inputTokens, outputTokens, cacheReadTokens, cacheWriteTokens
(= cacheCreationTokens), totalTokens (= sum of the four counters), cost,
currency "USD". -/
def claimUsagePayload (r : UsageReportFull) : List (String × JVal) :=
  [("model", .s r.model),
   ("provider", .s "anthropic"),
   ("inputTokens", .num r.inputTokens),
   ("outputTokens", .num r.outputTokens),
   ("cacheReadTokens", .num r.cacheReadTokens),
   ("cacheWriteTokens", .num r.cacheCreationTokens),
   ("totalTokens", .num (r.inputTokens + r.outputTokens + r.cacheReadTokens + r.cacheCreationTokens)),
   ("cost", .num r.cost),
   ("currency", .s "USD")]

/-- The baseReport of billing.test.ts restricted to the members the
retry-queue revision of UsageReport declares. -/
def baseReportV1 : UsageReportV1 :=
  { userId := "user-1", model := "claude-sonnet-4-6"
    inputTokens := 1000, outputTokens := 500, cost := 21 / 2000 }

/-- The baseReport of billing.test.ts (inputTokens 1000, outputTokens 500,
cacheReadTokens 200, cacheCreationTokens 100, cost 0.0105). -/
def baseReportFull : UsageReportFull :=
  { userId := "user-1", model := "claude-sonnet-4-6"
    inputTokens := 1000, outputTokens := 500
    cacheReadTokens := 200, cacheCreationTokens := 100, cost := 21 / 2000 }

/-- C5: neither billing.ts revision builds the payload the claim (and
billing.test.ts) requires. The retry-queue revision omits cacheReadTokens,
cacheWriteTokens and currency and computes totalTokens as inputTokens +
outputTokens only (1500 instead of 1800 on the test's baseReport); the
second revision sends costUsd and cacheCreationTokens and omits provider,
totalTokens and currency. -/
theorem c5_payload_divergence :
    usagePayloadV1 baseReportV1 =
        [("model", .s "claude-sonnet-4-6"), ("provider", .s "anthropic"),
         ("inputTokens", .num 1000), ("outputTokens", .num 500),
         ("totalTokens", .num 1500), ("cost", .num (21 / 2000))] ∧
    claimUsagePayload baseReportFull =
        [("model", .s "claude-sonnet-4-6"), ("provider", .s "anthropic"),
         ("inputTokens", .num 1000), ("outputTokens", .num 500),
         ("cacheReadTokens", .num 200), ("cacheWriteTokens", .num 100),
         ("totalTokens", .num 1800), ("cost", .num (21 / 2000)),
         ("currency", .s "USD")] ∧
    "cacheReadTokens" ∉ (usagePayloadV1 baseReportV1).map Prod.fst ∧
    "cacheWriteTokens" ∉ (usagePayloadV1 baseReportV1).map Prod.fst ∧
    "currency" ∉ (usagePayloadV1 baseReportV1).map Prod.fst ∧
    usagePayloadV1 baseReportV1 ≠ claimUsagePayload baseReportFull ∧
    ("provider" ∉ (usagePayloadV2
        { userId := "user-1", model := "claude-sonnet-4-6"
          usage := { inputTokens := 1000, outputTokens := 500
                     cacheReadTokens := 200, cacheCreationTokens := 100 }
          costUsd := 21 / 2000 }).map Prod.fst) := by
  refine ⟨?_, ?_, by decide, by decide, by decide, by decide, by decide⟩
  · norm_num [usagePayloadV1, baseReportV1]
  · norm_num [claimUsagePayload, baseReportFull]

/-- Outcome of one usage-report POST: `res.ok`, or a failure (a network
error or a thrown non-2xx status — both land in the same .catch). -/
inductive PostResult where
  | delivered
  | failed
  deriving DecidableEq, Repr

/-- The exponential backoff of the retry ladder:
BASE_RETRY_MS * 2^(retries - 1). -/
def backoffMs (retries : Nat) : Int := BASE_RETRY_MS * 2 ^ (retries - 1)

/-- One dispatch of a due retry entry by _processRetryQueue (part_002 lines
89-123): the entry is removed and its counter incremented; a counter above
MAX_RETRIES drops it without a POST; otherwise the POST is issued and a
failure re-appends the entry (with the new counter and backoff) only when
the counter is still below MAX_RETRIES and the queue has room. Returns the
re-enqueued counter (`none` when the entry leaves the system) and whether a
POST was issued. -/
def dispatchEntry (retries : Nat) (post : PostResult) (queueLen : Nat) :
    Option Nat × Bool :=
  if retries + 1 > MAX_RETRIES then (none, false)
  else
    match post with
    | .delivered => (none, true)
    | .failed =>
      if retries + 1 < MAX_RETRIES then
        (if queueLen < MAX_FAILED_REPORTS then some (retries + 1) else none, true)
      else (none, true)

/-- The scanner POSTs an entry receives across its lifetime: each list
element is one due dispatch (the POST outcome and the queue length seen at
re-append time); the run ends when dispatchEntry drops the entry. -/
def runRetryEntry : Nat → List (PostResult × Nat) → Nat
  | _, [] => 0
  | r, (post, qlen) :: rest =>
    match dispatchEntry r post qlen with
    | (none, posted) => if posted then 1 else 0
    | (some r2, posted) => (if posted then 1 else 0) + runRetryEntry r2 rest

theorem dispatchEntry_posted (r : Nat) (post : PostResult) (qlen : Nat)
    (h : (dispatchEntry r post qlen).2 = true) : r < MAX_RETRIES := by
  by_cases hr : r + 1 > MAX_RETRIES
  · exfalso
    unfold dispatchEntry at h
    rw [if_pos hr] at h
    simp at h
  · omega

theorem dispatchEntry_some (r : Nat) (post : PostResult) (qlen r2 : Nat)
    (b : Bool) (h : dispatchEntry r post qlen = (some r2, b)) :
    r2 = r + 1 ∧ r + 1 < MAX_RETRIES := by
  unfold dispatchEntry at h
  by_cases hr : r + 1 > MAX_RETRIES
  · rw [if_pos hr] at h
    simp at h
  · rw [if_neg hr] at h
    cases post with
    | delivered => simp at h
    | failed =>
      by_cases hmax : r + 1 < MAX_RETRIES
      · rw [if_pos hmax] at h
        by_cases hq : qlen < MAX_FAILED_REPORTS
        · rw [if_pos hq] at h
          simp at h
          exact ⟨h.1.symm, hmax⟩
        · rw [if_neg hq] at h
          simp at h
      · rw [if_neg hmax] at h
        simp at h

theorem runRetryEntry_le : ∀ (l : List (PostResult × Nat)) (r : Nat),
    runRetryEntry r l ≤ MAX_RETRIES - r := by
  intro l
  induction l with
  | nil => intro r; exact Nat.zero_le _
  | cons step rest ih =>
    intro r
    obtain ⟨post, qlen⟩ := step
    have h3 : MAX_RETRIES = 3 := rfl
    have hred : runRetryEntry r ((post, qlen) :: rest) =
        (match dispatchEntry r post qlen with
         | (none, posted) => if posted then 1 else 0
         | (some r2, posted) => (if posted then 1 else 0) + runRetryEntry r2 rest) := rfl
    rw [hred]
    cases hd : dispatchEntry r post qlen with
    | mk fst snd =>
      cases fst with
      | none =>
        cases snd with
        | false => show (0 : Nat) ≤ MAX_RETRIES - r; exact Nat.zero_le _
        | true =>
          have hrlt := dispatchEntry_posted r post qlen (by rw [hd])
          show (1 : Nat) ≤ MAX_RETRIES - r
          omega
      | some r2 =>
        obtain ⟨hr2, hlt⟩ := dispatchEntry_some r post qlen r2 snd hd
        subst hr2
        have hih := ih (r + 1)
        cases snd with
        | false =>
          show 0 + runRetryEntry (r + 1) rest ≤ MAX_RETRIES - r
          omega
        | true =>
          show 1 + runRetryEntry (r + 1) rest ≤ MAX_RETRIES - r
          omega

/-- C6: a retry entry enters the queue with counter 0 and receives at most
MAX_RETRIES = 3 scanner POSTs in total (so at most 4 POSTs counting the
initial send); an attempt that fails with the counter at MAX_RETRIES leaves
the entry dropped and not re-enqueued, and an entry whose counter already
reached MAX_RETRIES at dispatch is dropped without any POST. -/
theorem c6_retry_bound :
    (∀ l : List (PostResult × Nat), runRetryEntry 0 l ≤ MAX_RETRIES) ∧
    (∀ l : List (PostResult × Nat), 1 + runRetryEntry 0 l ≤ MAX_RETRIES + 1) ∧
    (∀ (post : PostResult) (qlen : Nat) (k : Nat),
      dispatchEntry (MAX_RETRIES + k) post qlen = (none, false)) ∧
    (∀ qlen : Nat, dispatchEntry (MAX_RETRIES - 1) .failed qlen = (none, true)) := by
  refine ⟨?_, ?_, ?_, ?_⟩
  · intro l
    simpa using runRetryEntry_le l 0
  · intro l
    have h := runRetryEntry_le l 0
    omega
  · intro post qlen k
    unfold dispatchEntry
    have h3 : MAX_RETRIES = 3 := rfl
    rw [if_pos (by omega)]
  · intro qlen
    rfl

/-- A retry-queue entry (the FailedReport interface of part_002). -/
structure FailedReport where
  token : String
  payload : List (String × JVal)
  retries : Nat
  nextRetry : Int
  deriving DecidableEq, Repr

/-- enqueueFailedReport (part_002 lines 65-76): a full queue first shifts
off its oldest (front) entry, then the new entry is appended with counter 0
and nextRetry = now + BASE_RETRY_MS. -/
def enqueueFailedReport (queue : List FailedReport) (token : String)
    (payload : List (String × JVal)) (now : Int) : List FailedReport :=
  let queue := if queue.length ≥ MAX_FAILED_REPORTS then queue.drop 1 else queue
  queue ++ [{ token := token, payload := payload, retries := 0
              nextRetry := now + BASE_RETRY_MS }]

/-- The re-append of _processRetryQueue's failure branch (part_002 lines
114-119): the retried entry returns to the queue only when there is room —
a full queue silently discards the retried entry itself. -/
def reAppendEntry (queue : List FailedReport) (entry : FailedReport) :
    List FailedReport :=
  if queue.length < MAX_FAILED_REPORTS then queue ++ [entry] else queue

/-- The operations that mutate the failedReports queue. -/
inductive QueueOp where
  | enq (token : String) (payload : List (String × JVal)) (now : Int)
  | reApp (entry : FailedReport)
  | removeAt (i : Nat)
  deriving Repr

/-- Apply one queue operation: initial enqueue, re-append after a failed
retry, or the splice(i, 1) removal of a due entry at dispatch. -/
def applyQueueOp (q : List FailedReport) : QueueOp → List FailedReport
  | .enq token payload now => enqueueFailedReport q token payload now
  | .reApp entry => reAppendEntry q entry
  | .removeAt i => q.eraseIdx i

/-- Run a sequence of queue operations from the initial empty queue. -/
def runQueueOps (ops : List QueueOp) : List FailedReport :=
  ops.foldl applyQueueOp []

theorem applyQueueOp_length_le (q : List FailedReport) (op : QueueOp)
    (h : q.length ≤ MAX_FAILED_REPORTS) :
    (applyQueueOp q op).length ≤ MAX_FAILED_REPORTS := by
  have h1000 : MAX_FAILED_REPORTS = 1000 := rfl
  cases op with
  | enq token payload now =>
    show (enqueueFailedReport q token payload now).length ≤ MAX_FAILED_REPORTS
    unfold enqueueFailedReport
    by_cases hq : q.length ≥ MAX_FAILED_REPORTS
    · simp only [if_pos hq, List.length_append, List.length_drop,
        List.length_singleton]
      omega
    · simp only [if_neg hq, List.length_append, List.length_singleton]
      omega
  | reApp entry =>
    show (reAppendEntry q entry).length ≤ MAX_FAILED_REPORTS
    unfold reAppendEntry
    by_cases hq : q.length < MAX_FAILED_REPORTS
    · simp only [if_pos hq, List.length_append, List.length_singleton]
      omega
    · simp only [if_neg hq]
      exact h
  | removeAt i =>
    show (q.eraseIdx i).length ≤ MAX_FAILED_REPORTS
    exact le_trans (List.length_eraseIdx_le q i) h

theorem foldl_applyQueueOp_length_le :
    ∀ (ops : List QueueOp) (q : List FailedReport),
      q.length ≤ MAX_FAILED_REPORTS →
        (ops.foldl applyQueueOp q).length ≤ MAX_FAILED_REPORTS := by
  intro ops
  induction ops with
  | nil => intro q h; exact h
  | cons op rest ih =>
    intro q h
    exact ih _ (applyQueueOp_length_le q op h)

/-- An arbitrary concrete retry entry. -/
def sampleEntry : FailedReport :=
  { token := "jwt-a", payload := [("cost", .num 1)], retries := 0, nextRetry := 0 }

/-- A second, distinct concrete retry entry. -/
def otherEntry : FailedReport :=
  { token := "jwt-b", payload := [("cost", .num 2)], retries := 1, nextRetry := 5 }

/-- C7 (counterexample): on a full queue the failure-branch re-append
discards the retried entry itself, not the oldest queue entry — the queue
is returned unchanged, the retried entry is nowhere in it, and the oldest
entry is still at the front; the claim that the oldest entry is the one
discarded on every overflowing insertion is false. -/
theorem c7_overflow_cex :
    reAppendEntry (List.replicate 1000 sampleEntry) otherEntry =
        List.replicate 1000 sampleEntry ∧
      otherEntry ∉ List.replicate 1000 sampleEntry ∧
      (List.replicate 1000 sampleEntry).head? = some sampleEntry := by
  refine ⟨?_, ?_, ?_⟩
  · unfold reAppendEntry
    rw [if_neg (by simp only [List.length_replicate, MAX_FAILED_REPORTS]; omega)]
  · intro hmem
    have := (List.eq_of_mem_replicate hmem)
    simp [otherEntry, sampleEntry] at this
  · rfl

/-- C7 (amended): the failed-reports queue never exceeds
MAX_FAILED_REPORTS = 1000 entries under any sequence of enqueues,
re-appends and removals; an initial enqueue on a full queue discards the
oldest (front) entry; a re-append on a full queue discards the retried
entry itself (the queue is unchanged). -/
theorem c7_overflow_amended :
    (∀ ops : List QueueOp, (runQueueOps ops).length ≤ MAX_FAILED_REPORTS) ∧
    (∀ (q : List FailedReport) (token : String) (payload : List (String × JVal)) (now : Int),
      q.length = MAX_FAILED_REPORTS →
        enqueueFailedReport q token payload now =
          q.drop 1 ++ [{ token := token, payload := payload, retries := 0
                         nextRetry := now + BASE_RETRY_MS }]) ∧
    (∀ (q : List FailedReport) (entry : FailedReport),
      q.length = MAX_FAILED_REPORTS → reAppendEntry q entry = q) := by
  refine ⟨?_, ?_, ?_⟩
  · intro ops
    exact foldl_applyQueueOp_length_le ops []
      (by simp only [List.length_nil]; omega)
  · intro q token payload now h
    unfold enqueueFailedReport
    rw [if_pos (le_of_eq h.symm)]
  · intro q entry h
    unfold reAppendEntry
    rw [if_neg (by omega)]

/-- C7 (witness): the amended statements applied at a concrete operation
sequence and at a concrete full queue. -/
theorem c7_overflow_witness :
    (runQueueOps [.enq "jwt-a" [] 0, .reApp otherEntry, .removeAt 0]).length ≤
        MAX_FAILED_REPORTS ∧
      ((List.replicate 1000 sampleEntry).length = MAX_FAILED_REPORTS ∧
        reAppendEntry (List.replicate 1000 sampleEntry) otherEntry =
          List.replicate 1000 sampleEntry) := by
  refine ⟨c7_overflow_amended.1 _,
    by simp only [List.length_replicate, MAX_FAILED_REPORTS], ?_⟩
  exact c7_overflow_amended.2.2 (List.replicate 1000 sampleEntry) otherEntry
    (by simp only [List.length_replicate, MAX_FAILED_REPORTS])

/-! ## Object identity of the getUsage() copy (stream-parser.ts)

JS object identity is modelled with an explicit store of UsageTokens
records addressed by index; the transform closure holds the address of its
internal accumulator, and `getUsage: () => ({ ...usage })` allocates a
fresh record holding a copy of the accumulator's current value. -/

/-- A store of UsageTokens records; addresses are indices into the list. -/
structure Store where
  cells : List UsageTokens
  deriving DecidableEq, Repr

/-- Read the record at an address. -/
def readCell (st : Store) (a : Nat) : Option UsageTokens := st.cells[a]?

/-- Overwrite the record at an address (mutating a JS object in place). -/
def writeCell (st : Store) (a : Nat) (v : UsageTokens) : Store :=
  ⟨st.cells.set a v⟩

/-- Allocate a fresh record, returning its address. -/
def allocCell (st : Store) (v : UsageTokens) : Store × Nat :=
  (⟨st.cells ++ [v]⟩, st.cells.length)

/-- The closure state of createUsageTrackingTransform as far as getUsage
and getModel observe it: the store, the accumulator's address, and the
captured model string (JS strings are immutable values). -/
structure UsageClosure where
  store : Store
  acc : Nat
  model : String
  deriving DecidableEq, Repr

/-- `getUsage: () => ({ ...usage })`: the spread copies the accumulator's
current members into a freshly allocated object and returns its address. -/
def getUsageImpl (c : UsageClosure) : UsageClosure × Nat :=
  let v := (readCell c.store c.acc).getD
    { inputTokens := 0, outputTokens := 0, cacheReadTokens := 0, cacheCreationTokens := 0 }
  let sa := allocCell c.store v
  ({ c with store := sa.1 }, sa.2)

/-- `getModel: () => model`: returns the captured string, touching nothing. -/
def getModelImpl (c : UsageClosure) : UsageClosure × String := (c, c.model)

/-- C10: getUsage() returns a fresh value copy of the internal accumulator:
the returned address differs from the accumulator's, the copy carries the
accumulator's value, writing any value through the returned address leaves
the accumulator's record (and hence every later getUsage() result)
unchanged, and neither getUsage() nor getModel() modifies the accumulator
or the model. -/
theorem c10_getusage_copy (c : UsageClosure)
    (h : c.acc < c.store.cells.length) :
    (getUsageImpl c).2 ≠ c.acc ∧
      readCell (getUsageImpl c).1.store (getUsageImpl c).2 = readCell c.store c.acc ∧
      readCell (getUsageImpl c).1.store c.acc = readCell c.store c.acc ∧
      (∀ v : UsageTokens,
        readCell (writeCell (getUsageImpl c).1.store (getUsageImpl c).2 v) c.acc =
          readCell c.store c.acc) ∧
      (getUsageImpl c).1.model = c.model ∧
      getModelImpl c = (c, c.model) := by
  obtain ⟨⟨cells⟩, acc, model⟩ := c
  have h2 : acc < cells.length := h
  have hsome : cells[acc]? = some cells[acc] := List.getElem?_eq_getElem h2
  have hval : getUsageImpl ⟨⟨cells⟩, acc, model⟩ =
      (⟨⟨cells ++ [(cells[acc]?).getD
          { inputTokens := 0, outputTokens := 0, cacheReadTokens := 0,
            cacheCreationTokens := 0 }]⟩, acc, model⟩, cells.length) := rfl
  rw [hval]
  refine ⟨by simp; omega, ?_, ?_, ?_, rfl, rfl⟩
  · show (cells ++ [(cells[acc]?).getD _])[cells.length]? = cells[acc]?
    rw [hsome, List.getElem?_append_right (Nat.le_refl _), Nat.sub_self]
    simp
  · show (cells ++ [(cells[acc]?).getD _])[acc]? = cells[acc]?
    rw [List.getElem?_append, if_pos h2]
  · intro v
    show ((cells ++ [(cells[acc]?).getD _]).set cells.length v)[acc]? = cells[acc]?
    rw [List.getElem?_set_ne (by omega), List.getElem?_append, if_pos h2]

/-- C10 (witness): the copy semantics at a concrete closure holding one
accumulator record. -/
theorem c10_getusage_copy_witness :
    (0 : Nat) < 1 ∧
      (getUsageImpl { store := ⟨[{ inputTokens := 1, outputTokens := 2, cacheReadTokens := 3, cacheCreationTokens := 4 }]⟩, acc := 0, model := "m" }).2 ≠ 0 ∧
      readCell (writeCell
          (getUsageImpl { store := ⟨[{ inputTokens := 1, outputTokens := 2, cacheReadTokens := 3, cacheCreationTokens := 4 }]⟩, acc := 0, model := "m" }).1.store
          (getUsageImpl { store := ⟨[{ inputTokens := 1, outputTokens := 2, cacheReadTokens := 3, cacheCreationTokens := 4 }]⟩, acc := 0, model := "m" }).2
          { inputTokens := 9, outputTokens := 9, cacheReadTokens := 9, cacheCreationTokens := 9 }) 0 =
        readCell ⟨[{ inputTokens := 1, outputTokens := 2, cacheReadTokens := 3, cacheCreationTokens := 4 }]⟩ 0 := by
  have h := c10_getusage_copy
    { store := ⟨[{ inputTokens := 1, outputTokens := 2, cacheReadTokens := 3, cacheCreationTokens := 4 }]⟩, acc := 0, model := "m" }
    (by decide)
  exact ⟨by decide, h.1, h.2.2.2.1 _⟩

/-! ## Request handler, POST /v1/messages (proxy.ts) -/

/-- A request-header value as fastify surfaces it: a string, or a repeated
header (string array, whose typeof is not "string"). -/
inductive HeaderVal where
  | str (s : String)
  | strArr
  deriving DecidableEq, Repr

/-- Environment of one request: the x-api-key header, the outcome of
verifyToken on it, the result of checkBalance for the verified user, and
the outcome of the upstream fetch (`.error` models a thrown fetch, `.ok`
carries the upstream status passed through). The response body piping and
metering tail of the handler is independent of the gate and is modelled by
the stream section. -/
structure ReqEnv where
  apiKeyHeader : Option HeaderVal
  verify : Except String String
  balance : BalanceResult
  upstream : Except Unit Nat
  deriving Repr

/-- The calls the handler issues, in order. -/
inductive Ev where
  | verifyEv
  | balanceEv
  | forwardEv
  deriving DecidableEq, Repr

/-- The response bodies the handler can produce before/at the forward. -/
inductive RespBody where
  | missingApiKey
  | invalidToken (details : String)
  | insufficientBalance
  | billingUnavailable
  | failedToReach
  | upstreamPassthrough
  deriving DecidableEq, Repr

/-- Outcome of the handler: response status, body kind, and the trace of
calls issued. -/
structure HandlerResult where
  status : Nat
  body : RespBody
  events : List Ev
  deriving DecidableEq, Repr

/-- The POST /v1/messages handler of the proxy.ts revision embedded in
billing.test.ts (lines 356-512), the revision proxy.test.ts asserts:
missing/non-string/empty x-api-key is 401, a verifyToken throw is 401, a
not-ok balance is 503 when serviceUnavailable is set and 402 otherwise,
a thrown upstream fetch is 502, and otherwise the upstream status is
passed through. -/
def proxyHandler (env : ReqEnv) : HandlerResult :=
  match env.apiKeyHeader with
  | none => ⟨401, .missingApiKey, []⟩
  | some .strArr => ⟨401, .missingApiKey, []⟩
  | some (.str s) =>
    if s = "" then ⟨401, .missingApiKey, []⟩
    else
      match env.verify with
      | .error msg => ⟨401, .invalidToken msg, [.verifyEv]⟩
      | .ok _userId =>
        if !env.balance.ok then
          if env.balance.serviceUnavailable then
            ⟨503, .billingUnavailable, [.verifyEv, .balanceEv]⟩
          else ⟨402, .insufficientBalance, [.verifyEv, .balanceEv]⟩
        else
          match env.upstream with
          | .error _ => ⟨502, .failedToReach, [.verifyEv, .balanceEv, .forwardEv]⟩
          | .ok st => ⟨st, .upstreamPassthrough, [.verifyEv, .balanceEv, .forwardEv]⟩

/-- The POST /v1/messages handler of src/unnamed/part_000: identical gate,
except that it destructures only `ok` from checkBalance and answers 402 on
every not-ok balance, the serviceUnavailable case included. -/
def proxyHandlerV0 (env : ReqEnv) : HandlerResult :=
  match env.apiKeyHeader with
  | none => ⟨401, .missingApiKey, []⟩
  | some .strArr => ⟨401, .missingApiKey, []⟩
  | some (.str s) =>
    if s = "" then ⟨401, .missingApiKey, []⟩
    else
      match env.verify with
      | .error msg => ⟨401, .invalidToken msg, [.verifyEv]⟩
      | .ok _userId =>
        if !env.balance.ok then ⟨402, .insufficientBalance, [.verifyEv, .balanceEv]⟩
        else
          match env.upstream with
          | .error _ => ⟨502, .failedToReach, [.verifyEv, .balanceEv, .forwardEv]⟩
          | .ok st => ⟨st, .upstreamPassthrough, [.verifyEv, .balanceEv, .forwardEv]⟩

/-- Token verification of the x-api-key header succeeded: the header is a
non-empty string and verifyToken resolved. -/
def authOk (env : ReqEnv) : Bool :=
  match env.apiKeyHeader with
  | some (.str s) =>
    !(s = "") && (match env.verify with | .ok _ => true | .error _ => false)
  | _ => false

/-- The upstream fetch was issued. -/
def forwardedReq (h : HandlerResult) : Bool := decide (Ev.forwardEv ∈ h.events)

/-- The handler rejected the request at the gate (the 401/402/503 error
bodies of the route itself, as opposed to an upstream status passed
through). -/
def gateRejected (h : HandlerResult) : Bool :=
  match h.body with
  | .missingApiKey => true
  | .invalidToken _ => true
  | .insufficientBalance => true
  | .billingUnavailable => true
  | .failedToReach => false
  | .upstreamPassthrough => false

/-- The full gate sequence: verify, then checkBalance, then the forward. -/
def gateTrace : List Ev := [.verifyEv, .balanceEv, .forwardEv]

/-- C1: in both proxy.ts revisions the upstream fetch is issued exactly
when token verification of the x-api-key header succeeded and checkBalance
answered ok; the call trace is always a prefix of
verify → checkBalance → forward (authentication strictly before the
balance check, strictly before the forward), a gate rejection never
reaches the upstream, and every gate rejection carries status 401, 402 or
503. -/
theorem c1_upstream_gating (env : ReqEnv) :
    (forwardedReq (proxyHandler env) = (authOk env && env.balance.ok)) ∧
      (forwardedReq (proxyHandlerV0 env) = (authOk env && env.balance.ok)) ∧
      ((gateRejected (proxyHandler env) && forwardedReq (proxyHandler env)) = false) ∧
      ((gateRejected (proxyHandlerV0 env) && forwardedReq (proxyHandlerV0 env)) = false) ∧
      (∃ n, (proxyHandler env).events = gateTrace.take n) ∧
      (∃ n, (proxyHandlerV0 env).events = gateTrace.take n) ∧
      (gateRejected (proxyHandler env) = true →
        (proxyHandler env).status = 401 ∨ (proxyHandler env).status = 402 ∨
          (proxyHandler env).status = 503) ∧
      (gateRejected (proxyHandlerV0 env) = true →
        (proxyHandlerV0 env).status = 401 ∨ (proxyHandlerV0 env).status = 402) := by
  obtain ⟨hk, hv, ⟨bal, ft, bok, bsu⟩, hu⟩ := env
  cases hk with
  | none =>
    exact ⟨rfl, rfl, rfl, rfl, ⟨0, rfl⟩, ⟨0, rfl⟩, fun _ => Or.inl rfl,
      fun _ => Or.inl rfl⟩
  | some hval =>
    cases hval with
    | strArr =>
      exact ⟨rfl, rfl, rfl, rfl, ⟨0, rfl⟩, ⟨0, rfl⟩, fun _ => Or.inl rfl,
        fun _ => Or.inl rfl⟩
    | str s =>
      by_cases hs : s = ""
      · subst hs
        exact ⟨rfl, rfl, rfl, rfl, ⟨0, rfl⟩, ⟨0, rfl⟩, fun _ => Or.inl rfl,
          fun _ => Or.inl rfl⟩
      · cases hv with
        | error msg =>
          refine ⟨?_, ?_, ?_, ?_, ⟨1, ?_⟩, ⟨1, ?_⟩, ?_, ?_⟩ <;>
            simp [proxyHandler, proxyHandlerV0, authOk, forwardedReq, gateRejected,
              gateTrace, hs]
        | ok userId =>
          cases bok with
          | false =>
            cases bsu with
            | false =>
              refine ⟨?_, ?_, ?_, ?_, ⟨2, ?_⟩, ⟨2, ?_⟩, ?_, ?_⟩ <;>
                simp [proxyHandler, proxyHandlerV0, authOk, forwardedReq, gateRejected,
                  gateTrace, hs]
            | true =>
              refine ⟨?_, ?_, ?_, ?_, ⟨2, ?_⟩, ⟨2, ?_⟩, ?_, ?_⟩ <;>
                simp [proxyHandler, proxyHandlerV0, authOk, forwardedReq, gateRejected,
                  gateTrace, hs]
          | true =>
            cases hu with
            | error e =>
              refine ⟨?_, ?_, ?_, ?_, ⟨3, ?_⟩, ⟨3, ?_⟩, ?_, ?_⟩ <;>
                simp [proxyHandler, proxyHandlerV0, authOk, forwardedReq, gateRejected,
                  gateTrace, hs]
            | ok st =>
              refine ⟨?_, ?_, ?_, ?_, ⟨3, ?_⟩, ⟨3, ?_⟩, ?_, ?_⟩ <;>
                simp [proxyHandler, proxyHandlerV0, authOk, forwardedReq, gateRejected,
                  gateTrace, hs]

/-- C1 (witness): the gating equivalence and trace applied at a concrete
accepted request and a concrete rejected one. -/
theorem c1_upstream_gating_witness :
    (forwardedReq (proxyHandler
        { apiKeyHeader := some (.str "jwt"), verify := .ok "user-1"
          balance := { balance := 5, freeTokens := 0, ok := true, serviceUnavailable := false }
          upstream := .ok 200 }) = true) ∧
      (forwardedReq (proxyHandlerV0
        { apiKeyHeader := none, verify := .error "no header"
          balance := { balance := 0, freeTokens := 0, ok := false, serviceUnavailable := false }
          upstream := .ok 200 }) = false) := by
  constructor
  · have h := (c1_upstream_gating
      { apiKeyHeader := some (.str "jwt"), verify := .ok "user-1"
        balance := { balance := 5, freeTokens := 0, ok := true, serviceUnavailable := false }
        upstream := .ok 200 }).1
    rw [h]
    decide
  · have h := (c1_upstream_gating
      { apiKeyHeader := none, verify := .error "no header"
        balance := { balance := 0, freeTokens := 0, ok := false, serviceUnavailable := false }
        upstream := .ok 200 }).2.1
    rw [h]
    decide

/-- The request environment of a billing outage with no usable cache:
authentication succeeds and checkBalance answers
`{ok: false, serviceUnavailable: true}`. -/
def billingOutageEnv : ReqEnv :=
  { apiKeyHeader := some (.str "valid-jwt")
    verify := .ok "user-1"
    balance := { balance := 0, freeTokens := 0, ok := false, serviceUnavailable := true }
    upstream := .ok 200 }

/-- C3: on a balance result with ok false and serviceUnavailable set, the
part_000 handler answers 402 "Insufficient balance" — it never reads
serviceUnavailable — while the revision embedded in billing.test.ts (and
asserted by proxy.test.ts) answers 503 "Billing service unavailable"; in
both revisions the plain insufficient-balance case is 402. -/
theorem c3_balance_rejection_divergence :
    (proxyHandlerV0 billingOutageEnv).status = 402 ∧
      (proxyHandlerV0 billingOutageEnv).body = .insufficientBalance ∧
      (proxyHandler billingOutageEnv).status = 503 ∧
      (proxyHandler billingOutageEnv).body = .billingUnavailable ∧
      (proxyHandler { billingOutageEnv with
          balance := { balance := 0, freeTokens := 0, ok := false, serviceUnavailable := false } }).status = 402 := by
  refine ⟨by decide, by decide, by decide, by decide, by decide⟩

end ClaudeProxy
